import Mathlib

/-!
Shallow embedding of the request-routing and pending-approval engine in
`src/extension/background.js` of the rusby-wallet repository.

Modelling conventions:
- JavaScript values that flow through the message channels are modelled by
  the inductive `JValue` (with `vUndefined` for `undefined`); JS truthiness is
  `JValue.truthy`.
- The in-memory background state (`walletLocked`, `pendingRequests`,
  `approvedOrigins`, `activeChainId`, `activeAccounts`, `wcInitialized`,
  `contentPorts`) is the structure `BGState`.  `pendingRequests` models the
  JS `Map` as its entry list (unique keys, insertion order); `approvedOrigins`
  models the plain object as an association list with string keys.
- Side effects (storage writes, port messages, pairing-protocol calls, popup
  opens) are reified as the `Eff` list a handler returns, in program order.
- `crypto.randomUUID()` and `Date.now()` are passed in as arguments
  (`fresh`, `now`).
-/

namespace Rusby

/-- A JavaScript value as it appears on the message channels. -/
inductive JValue where
  | vNull
  | vUndefined
  | vBool (b : Bool)
  | vStr (s : String)
  | vArr (xs : List JValue)
  | vObj (fields : List (String × JValue))
deriving Repr

/-- JS truthiness: `null`, `undefined`, `false` and `""` are falsy; arrays
and objects are always truthy. -/
def JValue.truthy : JValue → Bool
  | .vNull => false
  | .vUndefined => false
  | .vBool b => b
  | .vStr s => s ≠ ""
  | .vArr _ => true
  | .vObj _ => true

/-- `v[i]` on a JS value: array indexing, `undefined` otherwise
(out-of-range access also yields `undefined`). -/
def JValue.index : JValue → Nat → JValue
  | .vArr xs, i => (xs.get? i).getD .vUndefined
  | _, _ => .vUndefined

/-- `v.f` property access on a JS value: `undefined` when absent or when the
value is not an object. -/
def JValue.getField : JValue → String → JValue
  | .vObj fs, f => ((fs.find? (fun p => p.1 = f)).map (·.2)).getD .vUndefined
  | _, _ => .vUndefined

/-- Association-list lookup, modelling `map.get(k)` / `obj[k]` (with
`none` standing for `undefined`). -/
def alGet {α : Type} (l : List (String × α)) (k : String) : Option α :=
  (l.find? (fun p => p.1 = k)).map (·.2)

/-- `map.set(k, v)` / `obj[k] = v`: update in place when the key exists
(JS preserves the entry position), append otherwise. -/
def alSet {α : Type} (l : List (String × α)) (k : String) (v : α) :
    List (String × α) :=
  if l.any (fun p => p.1 = k) then
    l.map (fun p => if p.1 = k then (k, v) else p)
  else l ++ [(k, v)]

/-- `map.delete(k)` / `delete obj[k]` on a unique-keyed entry list. -/
def alErase {α : Type} (l : List (String × α)) (k : String) :
    List (String × α) :=
  l.filter (fun p => p.1 ≠ k)

/-- Truthiness of `obj[k]`: absent keys read as `undefined` (falsy). -/
def truthyLookup (l : List (String × JValue)) (k : String) : Bool :=
  match alGet l k with
  | some v => v.truthy
  | none => false

/-- One entry of the `pendingRequests` table (background.js lines 96-108 and
240-243).  Page-sourced entries leave the `wc*` fields and `source` at
`none`; WalletConnect-sourced entries have them populated and `tabId = none`. -/
structure PendingRequest where
  id : Nat
  method : String
  params : JValue
  origin : String
  tabId : Option Nat
  requestId : String
  wcTopic : Option String := none
  wcRequestId : Option Nat := none
  wcChainId : Option String := none
  source : Option String := none
  timestamp : Nat
deriving Repr

/-- The background service worker state (module-level `let` bindings,
lines 12-18, plus the `contentPorts` registry of line 147, kept as the set
of tab ids that currently hold a connected port). -/
structure BGState where
  walletLocked : Bool := true
  pendingRequests : List (String × PendingRequest) := []
  approvedOrigins : List (String × JValue) := []
  activeChainId : String := "0x1"
  activeAccounts : List String := []
  wcInitialized : Bool := false
  contentPorts : List Nat := []
deriving Repr

/-- The `chrome.storage.local` snapshot under the five session keys;
`none` models an absent key. -/
structure StorageData where
  approvedOrigins : Option (List (String × JValue)) := none
  activeChainId : Option String := none
  walletLocked : Option Bool := none
  pendingRequests : Option (List (String × PendingRequest)) := none
  activeAccounts : Option (List String) := none
deriving Repr

/-- `persistState` (lines 48-60): writes the full snapshot.
`Object.fromEntries` on a `Map` keeps the unique-keyed entry sequence, so the
table is stored as-is. -/
def persistState (st : BGState) : StorageData where
  approvedOrigins := some st.approvedOrigins
  activeChainId := some st.activeChainId
  walletLocked := some st.walletLocked
  pendingRequests := some st.pendingRequests
  activeAccounts := some st.activeAccounts

/-- `restoreState` (lines 30-46), success path: reads the snapshot into the
given in-memory state.  `||` defaults apply to falsy reads (`undefined`, and
for `activeChainId` also the empty string); `walletLocked` restores as
`data.walletLocked !== false`; an absent `pendingRequests` key leaves the
in-memory table untouched. -/
def restoreState (d : StorageData) (st : BGState) : BGState where
  approvedOrigins := d.approvedOrigins.getD []
  activeChainId :=
    match d.activeChainId with
    | some s => if s = "" then "0x1" else s
    | none => "0x1"
  walletLocked :=
    match d.walletLocked with
    | some false => false
    | _ => true
  pendingRequests :=
    match d.pendingRequests with
    | some t => t
    | none => st.pendingRequests
  activeAccounts := d.activeAccounts.getD []
  wcInitialized := st.wcInitialized
  contentPorts := st.contentPorts

/-- The state of a freshly started service worker (the initial values of the
module-level bindings, lines 12-18). -/
def freshBGState : BGState := {}

/-- A payload posted on a content-script port. -/
inductive PortPayload where
  | res (id : Nat) (result : JValue)
  | err (id : Nat) (code : Int) (message : String)
  | event (name : String) (data : JValue)
deriving Repr

/-- A side effect performed by a handler, in program order. -/
inductive Eff where
  | persist (d : StorageData)
  | portMsg (tabId : Nat) (payload : PortPayload)
  | wcRespond (topic : Option String) (wcRequestId : Option Nat) (result : JValue)
  | wcReject (topic : Option String) (wcRequestId : Option Nat) (reason : String)
  | openPopup (url : String)
deriving Repr

/-- Whether an effect is a message on a content-script port (Channel
Registry delivery). -/
def Eff.isPortMsg : Eff → Bool
  | .portMsg _ _ => true
  | _ => false

/-- A synchronous outcome of the dApp dispatcher; a deferred call is
`none` at the `Option Outcome` level (the JS `null`). -/
inductive Outcome where
  | result (v : JValue)
  | error (code : Int) (message : String)
deriving Repr

/-- `broadcastEvent` (lines 460-468): posts the event to every registered
port. -/
def broadcastEvent (st : BGState) (name : String) (data : JValue) : List Eff :=
  st.contentPorts.map (fun t => Eff.portMsg t (.event name data))

/-- An inbound dApp call `{ id, method, params }` (line 184). -/
structure DappMsg where
  id : Nat
  method : String
  params : JValue := .vUndefined
deriving Repr

/-- `enqueueForApproval` (lines 238-261): stores a fresh pending entry,
persists, opens the approval popup, and returns `null` (deferred). -/
def enqueueForApproval (st : BGState) (id : Nat) (method : String)
    (params : JValue) (origin : String) (tabId : Option Nat)
    (fresh : String) (now : Nat) : BGState × Option Outcome × List Eff :=
  let req : PendingRequest :=
    { id := id, method := method, params := params, origin := origin,
      tabId := tabId, requestId := fresh, timestamp := now }
  let st₁ := { st with pendingRequests := alSet st.pendingRequests fresh req }
  (st₁, none,
    [Eff.persist (persistState st₁),
     Eff.openPopup ("index.html?approve=" ++ fresh)])

/-- `handleRequestAccounts` (lines 228-236). -/
def handleRequestAccounts (st : BGState) (id : Nat) (origin : String)
    (tabId : Option Nat) (fresh : String) (now : Nat) :
    BGState × Option Outcome × List Eff :=
  if st.walletLocked then
    enqueueForApproval st id "eth_requestAccounts" (.vArr []) origin tabId fresh now
  else
    match alGet st.approvedOrigins origin with
    | some v =>
        if v.truthy then (st, some (.result v), [])
        else enqueueForApproval st id "eth_requestAccounts" (.vArr []) origin tabId fresh now
    | none =>
        enqueueForApproval st id "eth_requestAccounts" (.vArr []) origin tabId fresh now

/-- The fixed supported chain set (line 269). -/
def knownChains : List String := ["0x1", "0x89", "0x38", "0xa", "0x2105", "0xa4b1"]

/-- `handleSwitchChain` (lines 263-278).  The guard
`!params || !params[0] || !params[0].chainId` is the JS truthiness chain; a
non-string `chainId` never passes `knownChains.includes` and falls into the
4902 branch. -/
def handleSwitchChain (st : BGState) (params : JValue) :
    BGState × Option Outcome × List Eff :=
  if ¬ (params.truthy && (params.index 0).truthy
        && ((params.index 0).getField "chainId").truthy) then
    (st, some (.error (-32602) "Invalid params"), [])
  else
    match (params.index 0).getField "chainId" with
    | .vStr c =>
        if c ∈ knownChains then
          let st₁ := { st with activeChainId := c }
          (st₁, some (.result .vNull),
            Eff.persist (persistState st₁) :: broadcastEvent st₁ "chainChanged" (.vStr c))
        else (st, some (.error 4902 "Unrecognized chain ID"), [])
    | _ => (st, some (.error 4902 "Unrecognized chain ID"), [])

/-- Hexadecimal digit value, as `parseInt(_, 16)` accepts it. -/
def hexDigitVal (c : Char) : Option Nat :=
  if '0' ≤ c ∧ c ≤ '9' then some (c.toNat - '0'.toNat)
  else if 'a' ≤ c ∧ c ≤ 'f' then some (c.toNat - 'a'.toNat + 10)
  else if 'A' ≤ c ∧ c ≤ 'F' then some (c.toNat - 'A'.toNat + 10)
  else none

/-- Maximal hex-digit prefix accumulator for `parseInt(_, 16)`. -/
def parseHexAux : List Char → Nat → Nat
  | [], acc => acc
  | c :: cs, acc =>
      match hexDigitVal c with
      | some d => parseHexAux cs (acc * 16 + d)
      | none => acc

/-- `parseInt(s, 16)` on the chain-id strings this program feeds it
(no leading whitespace or sign): strips an optional `0x`/`0X` prefix and
parses the maximal hex prefix; `none` is `NaN`. -/
def parseIntHex (s : String) : Option Nat :=
  let cs := s.data
  let cs := if cs.take 2 = ['0', 'x'] ∨ cs.take 2 = ['0', 'X'] then cs.drop 2 else cs
  match cs with
  | [] => none
  | c :: _ =>
      match hexDigitVal c with
      | some _ => some (parseHexAux cs 0)
      | none => none

/-- `String(parseInt(activeChainId, 16))` (line 200). -/
def netVersionString (s : String) : String :=
  match parseIntHex s with
  | some n => toString n
  | none => "NaN"

/-- The shared fall-through body of the `eth_sendTransaction` /
`personal_sign` / `eth_signTypedData_v4` case of the dispatcher
(lines 202-211). -/
def handleSignLike (st : BGState) (msg : DappMsg) (origin : String)
    (tabId : Option Nat) (fresh : String) (now : Nat) :
    BGState × Option Outcome × List Eff :=
  if st.walletLocked then
    (st, some (.error 4100 "Wallet locked"), [])
  else if !(truthyLookup st.approvedOrigins origin) then
    (st, some (.error 4100 "Not connected"), [])
  else
    enqueueForApproval st msg.id msg.method msg.params origin tabId fresh now

/-- `handleDappMessage` (lines 183-226): the Request Dispatcher. -/
def handleDappMessage (st : BGState) (msg : DappMsg) (origin : String)
    (tabId : Option Nat) (fresh : String) (now : Nat) :
    BGState × Option Outcome × List Eff :=
  match msg.method with
  | "eth_requestAccounts" =>
      handleRequestAccounts st msg.id origin tabId fresh now
  | "eth_accounts" =>
      if st.walletLocked || !(truthyLookup st.approvedOrigins origin) then
        (st, some (.result (.vArr [])), [])
      else
        (st, some (.result ((alGet st.approvedOrigins origin).getD .vUndefined)), [])
  | "eth_chainId" =>
      (st, some (.result (.vStr st.activeChainId)), [])
  | "net_version" =>
      (st, some (.result (.vStr (netVersionString st.activeChainId))), [])
  | "eth_sendTransaction" =>
      handleSignLike st msg origin tabId fresh now
  | "personal_sign" =>
      handleSignLike st msg origin tabId fresh now
  | "eth_signTypedData_v4" =>
      handleSignLike st msg origin tabId fresh now
  | "wallet_switchEthereumChain" =>
      if !(truthyLookup st.approvedOrigins origin) then
        (st, some (.error 4100 "Not connected"), [])
      else handleSwitchChain st msg.params
  | "wallet_addEthereumChain" =>
      (st, some (.error 4200 "Custom chains not supported"), [])
  | m =>
      (st, some (.error 4200 ("Method not supported: " ++ m)), [])

/-- The `session_request` subscriber installed by `initWalletConnect`
(lines 92-121): builds a WalletConnect-sourced pending entry
(`tabId: null`, pairing fields populated), persists, opens the approval
popup. -/
def onWcSessionRequest (st : BGState) (topic : String) (wcId : Nat)
    (chainId : String) (method : String) (params : JValue)
    (fresh : String) (now : Nat) : BGState × List Eff :=
  let req : PendingRequest :=
    { id := wcId, method := method, params := params,
      origin := "walletconnect:" ++ topic, tabId := none, requestId := fresh,
      wcTopic := some topic, wcRequestId := some wcId,
      wcChainId := some chainId, source := some "walletconnect",
      timestamp := now }
  let st₁ := { st with pendingRequests := alSet st.pendingRequests fresh req }
  (st₁,
    [Eff.persist (persistState st₁),
     Eff.openPopup ("index.html?approve=" ++ fresh)])

/-- A message from the (trusted) approval popup; only the session-state
surface is modelled — the WalletConnect administrative cases
(`__rusby_wc_*`) act on the external pairing client and the proposal table
only, never on the session fields. -/
inductive PopupMsg where
  | approve (requestId : String) (result : JValue)
  | reject (requestId : String)
  | lockState (locked : Bool)
  | setAccounts (accounts : Option (List String))
  | getPending
  | revokeOrigin (origin : String)
  | getApprovedOrigins
deriving Repr

/-- The reply object `handlePopupMessage` resolves with. -/
inductive PopupReply where
  | errorS (message : String)
  | ok
  | requests (rs : List PendingRequest)
  | origins (m : List (String × JValue))
deriving Repr

/-- The `__rusby_approve` case (lines 283-311). -/
def popupApprove (st : BGState) (requestId : String) (result : JValue) :
    BGState × PopupReply × List Eff :=
  match alGet st.pendingRequests requestId with
  | none => (st, .errorS "Request not found", [])
  | some req =>
      let origins :=
        if req.method = "eth_requestAccounts" ∧ result.truthy = true then
          alSet st.approvedOrigins req.origin result
        else st.approvedOrigins
      let delivery :=
        if req.source = some "walletconnect" ∧ st.wcInitialized = true then
          [Eff.wcRespond req.wcTopic req.wcRequestId result]
        else
          match req.tabId with
          | some t =>
              if t ∈ st.contentPorts then
                [Eff.portMsg t (.res req.id result)]
              else []
          | none => []
      let st₁ := { st with approvedOrigins := origins,
                           pendingRequests := alErase st.pendingRequests requestId }
      (st₁, .ok, delivery ++ [Eff.persist (persistState st₁)])

/-- The `__rusby_reject` case (lines 313-337). -/
def popupReject (st : BGState) (requestId : String) :
    BGState × PopupReply × List Eff :=
  match alGet st.pendingRequests requestId with
  | none => (st, .errorS "Request not found", [])
  | some req =>
      let delivery :=
        if req.source = some "walletconnect" ∧ st.wcInitialized = true then
          [Eff.wcReject req.wcTopic req.wcRequestId "User rejected"]
        else
          match req.tabId with
          | some t =>
              if t ∈ st.contentPorts then
                [Eff.portMsg t (.err req.id 4001 "User rejected request")]
              else []
          | none => []
      let st₁ := { st with pendingRequests := alErase st.pendingRequests requestId }
      (st₁, .ok, delivery ++ [Eff.persist (persistState st₁)])

/-- `handlePopupMessage` (lines 281-457), session-state surface. -/
def handlePopupMessage (st : BGState) (msg : PopupMsg) :
    BGState × PopupReply × List Eff :=
  match msg with
  | .approve requestId result => popupApprove st requestId result
  | .reject requestId => popupReject st requestId
  | .lockState locked =>
      let st₁ := { st with walletLocked := locked,
                           activeAccounts := if locked then [] else st.activeAccounts }
      (st₁, .ok,
        Eff.persist (persistState st₁)
          :: (if locked then broadcastEvent st₁ "accountsChanged" (.vArr []) else []))
  | .setAccounts accounts =>
      let st₁ := { st with activeAccounts := accounts.getD [] }
      (st₁, .ok, [Eff.persist (persistState st₁)])
  | .getPending =>
      (st, .requests (st.pendingRequests.map (·.2)), [])
  | .revokeOrigin origin =>
      let st₁ := { st with approvedOrigins := alErase st.approvedOrigins origin }
      (st₁, .ok,
        Eff.persist (persistState st₁)
          :: broadcastEvent st₁ "accountsChanged" (.vArr []))
  | .getApprovedOrigins =>
      (st, .origins st.approvedOrigins, [])

/-- The message shape of a `wallet_switchEthereumChain` call carrying a
single string chain id, `{ id, method, params: [{ chainId }] }`. -/
def switchChainMsg (i : Nat) (c : String) : DappMsg :=
  { id := i, method := "wallet_switchEthereumChain",
    params := .vArr [.vObj [("chainId", .vStr c)]] }

/-- Every grant value in `approvedOrigins` is truthy.  The program only ever
writes grants through the guarded assignment of line 289-290, whose guard
requires a truthy `result`, so this holds of every reachable state. -/
def GrantsTruthy (m : List (String × JValue)) : Prop :=
  ∀ p ∈ m, p.2.truthy = true

/-- A concrete dApp origin used by the witness scenarios. -/
def dappOrigin : String := "https://dapp.example"

/-- A concrete `personal_sign` call used by the witness scenarios. -/
def signMsgW : DappMsg := { id := 5, method := "personal_sign", params := .vArr [] }

/-- A concrete pending `personal_sign` entry used by the witness scenarios. -/
def reqW : PendingRequest :=
  { id := 42, method := "personal_sign", params := .vArr [.vStr "0xdeadbeef"],
    origin := dappOrigin, tabId := some 7, requestId := "rid-1", timestamp := 100 }

/-- A concrete pending `eth_requestAccounts` entry used by the witness
scenarios. -/
def reqRA : PendingRequest :=
  { id := 43, method := "eth_requestAccounts", params := .vArr [],
    origin := dappOrigin, tabId := some 7, requestId := "rid-2", timestamp := 101 }

/-- A concrete unlocked background state with one authorized origin, two
pending entries and one connected content-script port. -/
def stW : BGState :=
  { walletLocked := false,
    pendingRequests := [("rid-1", reqW), ("rid-2", reqRA)],
    approvedOrigins := [(dappOrigin, .vArr [.vStr "0xabc"])],
    activeChainId := "0x1", activeAccounts := ["0xabc"],
    wcInitialized := true, contentPorts := [7] }

/-! ## Truthiness of each value shape -/

@[simp] theorem truthy_vNull : JValue.truthy .vNull = false := rfl

@[simp] theorem truthy_vUndefined : JValue.truthy .vUndefined = false := rfl

@[simp] theorem truthy_vBool (b : Bool) : JValue.truthy (.vBool b) = b := rfl

@[simp] theorem truthy_vStr (s : String) : JValue.truthy (.vStr s) = decide (s ≠ "") := rfl

@[simp] theorem truthy_vArr (xs : List JValue) : JValue.truthy (.vArr xs) = true := rfl

@[simp] theorem truthy_vObj (fs : List (String × JValue)) : JValue.truthy (.vObj fs) = true := rfl

/-! ## Association-list lemmas -/

theorem alGet_alSet_self {α : Type} (l : List (String × α)) (k : String) (v : α) :
    alGet (alSet l k v) k = some v := by
  unfold alSet alGet
  by_cases ha : l.any (fun p => p.1 = k)
  · rw [if_pos ha, List.find?_map]
    have hfun : ((fun p : String × α => decide (p.1 = k)) ∘ fun p => if p.1 = k then (k, v) else p)
        = fun p : String × α => decide (p.1 = k) := by
      funext q
      by_cases hq : q.1 = k <;> simp [hq]
    rw [hfun]
    have hsome : (l.find? (fun p => decide (p.1 = k))).isSome := by
      rw [List.find?_isSome]
      simpa using List.any_eq_true.mp ha
    obtain ⟨q, hq⟩ := Option.isSome_iff_exists.mp hsome
    have hqk : q.1 = k := by simpa using List.find?_some hq
    simp [hq, hqk]
  · rw [if_neg ha]
    have hnone : l.find? (fun p => decide (p.1 = k)) = none := by
      rw [List.find?_eq_none]
      intro x hx
      simp only [List.any_eq_true, not_exists] at ha
      simpa using fun hk => ha x ⟨hx, by simpa using hk⟩
    simp [hnone]

theorem alGet_alErase_self {α : Type} (l : List (String × α)) (k : String) :
    alGet (alErase l k) k = none := by
  unfold alErase alGet
  rw [List.find?_filter]
  have : l.find? (fun p => decide (p.1 ≠ k) && decide (p.1 = k)) = none := by
    rw [List.find?_eq_none]
    intro x _
    by_cases hx : x.1 = k <;> simp [hx]
  simp [this]

theorem mem_alSet {α : Type} {l : List (String × α)} {k : String} {v : α} {p : String × α}
    (hp : p ∈ alSet l k v) : p ∈ l ∨ p = (k, v) := by
  unfold alSet at hp
  split at hp
  · obtain ⟨q, hq, hfq⟩ := List.mem_map.mp hp
    by_cases hqk : q.1 = k
    · right
      rw [if_pos hqk] at hfq
      exact hfq.symm
    · left
      rw [if_neg hqk] at hfq
      rwa [← hfq]
  · rcases List.mem_append.mp hp with h | h
    · left; exact h
    · right; simpa using h

/-! ## State invariants

The dispatcher never writes `approvedOrigins`; only the guarded assignment in
the approve path does, and its guard requires a truthy result, so all grant
values stay truthy.  `activeChainId` is only ever replaced by a member of
`knownChains` or a restore default, hence stays nonempty.  These lemmas
justify the corresponding hypotheses of the round-trip and account-read
theorems below: they hold of every reachable state. -/

theorem handleDappMessage_approvedOrigins (st : BGState) (msg : DappMsg)
    (origin : String) (tabId : Option Nat) (fresh : String) (now : Nat) :
    (handleDappMessage st msg origin tabId fresh now).1.approvedOrigins
      = st.approvedOrigins := by
  unfold handleDappMessage handleRequestAccounts handleSignLike handleSwitchChain
    enqueueForApproval
  repeat' split
  all_goals rfl

theorem handleDappMessage_activeChainId (st : BGState) (msg : DappMsg)
    (origin : String) (tabId : Option Nat) (fresh : String) (now : Nat) :
    (handleDappMessage st msg origin tabId fresh now).1.activeChainId = st.activeChainId
      ∨ (handleDappMessage st msg origin tabId fresh now).1.activeChainId ∈ knownChains := by
  unfold handleDappMessage handleRequestAccounts handleSignLike handleSwitchChain
    enqueueForApproval
  repeat' split
  any_goals (left; rfl)
  all_goals (right; assumption)

theorem handlePopupMessage_activeChainId (st : BGState) (msg : PopupMsg) :
    (handlePopupMessage st msg).1.activeChainId = st.activeChainId := by
  unfold handlePopupMessage popupApprove popupReject
  repeat' split
  all_goals rfl

theorem restoreState_activeChainId_ne (d : StorageData) (st : BGState) :
    (restoreState d st).activeChainId ≠ "" := by
  obtain ⟨a, ac, w, p, aa⟩ := d
  rcases ac with _ | s
  · simp [restoreState]
  · by_cases hs : s = "" <;> simp [restoreState, hs]

theorem handlePopupMessage_grantsTruthy (st : BGState) (msg : PopupMsg)
    (h : GrantsTruthy st.approvedOrigins) :
    GrantsTruthy (handlePopupMessage st msg).1.approvedOrigins := by
  cases msg with
  | approve rid r =>
    rcases hm : alGet st.pendingRequests rid with _ | req
    · simpa [handlePopupMessage, popupApprove, hm] using h
    · simp only [handlePopupMessage, popupApprove, hm]
      by_cases hcond : req.method = "eth_requestAccounts" ∧ r.truthy = true
      · simp only [if_pos hcond]
        intro p hp
        rcases mem_alSet hp with h1 | h2
        · exact h p h1
        · rw [h2]
          exact hcond.2
      · simpa only [if_neg hcond] using h
  | reject rid =>
    rcases hm : alGet st.pendingRequests rid with _ | req <;>
      simpa [handlePopupMessage, popupReject, hm] using h
  | lockState locked => simpa [handlePopupMessage] using h
  | setAccounts accounts => simpa [handlePopupMessage] using h
  | getPending => simpa [handlePopupMessage] using h
  | revokeOrigin origin =>
    intro p hp
    simp only [handlePopupMessage] at hp
    exact h p (List.mem_filter.mp hp).1
  | getApprovedOrigins => simpa [handlePopupMessage] using h

/-! ## Claim theorems -/

/-- C1: for every origin and every session state, `eth_accounts` returns the
empty list whenever the session is locked or the origin is absent from
`approvedOrigins`, returns exactly `approvedOrigins[o]` when the session is
unlocked and the origin is present (with its reachable-state truthy grant),
and never returns an error. -/
theorem c1_eth_accounts_policy (st : BGState) (origin : String) (i : Nat)
    (tabId : Option Nat) (fresh : String) (now : Nat) :
    (st.walletLocked = true ∨ alGet st.approvedOrigins origin = none →
      handleDappMessage st { id := i, method := "eth_accounts" } origin tabId fresh now
        = (st, some (.result (.vArr [])), [])) ∧
    (∀ v, st.walletLocked = false → alGet st.approvedOrigins origin = some v →
      v.truthy = true →
      handleDappMessage st { id := i, method := "eth_accounts" } origin tabId fresh now
        = (st, some (.result v), [])) ∧
    (∀ c m, (handleDappMessage st { id := i, method := "eth_accounts" } origin tabId fresh now).2.1
        ≠ some (.error c m)) := by
  refine ⟨?_, ?_, ?_⟩
  · rintro (hl | ho)
    · simp [handleDappMessage, hl]
    · simp [handleDappMessage, truthyLookup, ho]
  · intro v hl ho hv
    simp [handleDappMessage, truthyLookup, hl, ho, hv]
  · intro c m
    by_cases hl : st.walletLocked
    · simp [handleDappMessage, hl]
    · by_cases ht : truthyLookup st.approvedOrigins origin
      · simp [handleDappMessage, hl, ht]
      · simp [handleDappMessage, hl, ht]

theorem c1_eth_accounts_policy_witness :
    handleDappMessage stW { id := 1, method := "eth_accounts" } dappOrigin (some 7) "u" 0
      = (stW, some (.result (.vArr [.vStr "0xabc"])), []) :=
  (c1_eth_accounts_policy stW dappOrigin 1 (some 7) "u" 0).2.1
    (.vArr [.vStr "0xabc"]) rfl rfl rfl

/-- C2: for `eth_sendTransaction` / `personal_sign` / `eth_signTypedData_v4`,
a locked session fails synchronously with the fixed 4100 "Wallet locked"
error, an unlocked but unauthorized origin fails synchronously with the
fixed 4100 "Not connected" error, and an unlocked authorized origin defers
(outcome `null`) while creating the pending entry; a subsequent rejection of
that entry delivers `{id, error: {code: 4001}}` on the originating channel
and removes the entry. -/
theorem c2_sign_dispatch (st : BGState) (msg : DappMsg) (origin : String)
    (t : Nat) (fresh : String) (now : Nat)
    (hm : msg.method = "eth_sendTransaction" ∨ msg.method = "personal_sign"
          ∨ msg.method = "eth_signTypedData_v4") :
    (st.walletLocked = true →
      handleDappMessage st msg origin (some t) fresh now
        = (st, some (.error 4100 "Wallet locked"), [])) ∧
    (st.walletLocked = false → alGet st.approvedOrigins origin = none →
      handleDappMessage st msg origin (some t) fresh now
        = (st, some (.error 4100 "Not connected"), [])) ∧
    (∀ v, st.walletLocked = false → alGet st.approvedOrigins origin = some v →
      v.truthy = true →
      (handleDappMessage st msg origin (some t) fresh now).2.1 = none ∧
      alGet (handleDappMessage st msg origin (some t) fresh now).1.pendingRequests fresh
        = some { id := msg.id, method := msg.method, params := msg.params,
                 origin := origin, tabId := some t, requestId := fresh,
                 timestamp := now } ∧
      (t ∈ st.contentPorts →
        Eff.portMsg t (.err msg.id 4001 "User rejected request")
          ∈ (handlePopupMessage (handleDappMessage st msg origin (some t) fresh now).1
              (.reject fresh)).2.2 ∧
        alGet (handlePopupMessage (handleDappMessage st msg origin (some t) fresh now).1
              (.reject fresh)).1.pendingRequests fresh = none)) := by
  have key : handleDappMessage st msg origin (some t) fresh now
      = handleSignLike st msg origin (some t) fresh now := by
    rcases hm with h | h | h <;> simp [handleDappMessage, h]
  rw [key]
  refine ⟨?_, ?_, ?_⟩
  · intro hl
    simp [handleSignLike, hl]
  · intro hl ho
    simp [handleSignLike, truthyLookup, hl, ho]
  · intro v hl ho hv
    have hget : alGet (alSet st.pendingRequests fresh
        { id := msg.id, method := msg.method, params := msg.params,
          origin := origin, tabId := some t, requestId := fresh,
          timestamp := now : PendingRequest }) fresh
        = some { id := msg.id, method := msg.method, params := msg.params,
                 origin := origin, tabId := some t, requestId := fresh,
                 timestamp := now } :=
      alGet_alSet_self _ _ _
    refine ⟨?_, ?_, ?_⟩
    · simp [handleSignLike, enqueueForApproval, truthyLookup, hl, ho, hv]
    · simpa [handleSignLike, enqueueForApproval, truthyLookup, hl, ho, hv] using hget
    · intro hp
      constructor
      · simp [handleSignLike, enqueueForApproval, truthyLookup, hl, ho, hv,
          handlePopupMessage, popupReject, hget, hp]
      · simp [handleSignLike, enqueueForApproval, truthyLookup, hl, ho, hv,
          handlePopupMessage, popupReject, hget, alGet_alErase_self]

theorem c2_sign_dispatch_witness :
    (handleDappMessage stW signMsgW dappOrigin (some 7) "u2" 3).2.1 = none ∧
    Eff.portMsg 7 (.err 5 4001 "User rejected request")
      ∈ (handlePopupMessage (handleDappMessage stW signMsgW dappOrigin (some 7) "u2" 3).1
          (.reject "u2")).2.2 := by
  have h := c2_sign_dispatch stW signMsgW dappOrigin 7 "u2" 3 (Or.inr (Or.inl rfl))
  have h3 := h.2.2 (.vArr [.vStr "0xabc"]) rfl rfl rfl
  exact ⟨h3.1, (h3.2.2 (by decide)).1⟩

/-- C3: resolving (approving or rejecting) a `requestId` that is not in
`pendingRequests` replies "Request not found" and performs no side effect:
the state is returned unchanged and no effect is emitted. -/
theorem c3_resolve_missing (st : BGState) (rid : String) (r : JValue)
    (h : alGet st.pendingRequests rid = none) :
    handlePopupMessage st (.approve rid r) = (st, .errorS "Request not found", []) ∧
    handlePopupMessage st (.reject rid) = (st, .errorS "Request not found", []) := by
  constructor
  · simp [handlePopupMessage, popupApprove, h]
  · simp [handlePopupMessage, popupReject, h]

theorem c3_resolve_missing_witness :
    handlePopupMessage stW (.approve "nope" .vNull) = (stW, .errorS "Request not found", []) ∧
    handlePopupMessage stW (.reject "nope") = (stW, .errorS "Request not found", []) :=
  c3_resolve_missing stW "nope" .vNull rfl

/-- C4: resolving a present `requestId` (approve or reject) removes it from
`pendingRequests`, the table is persisted after removal, and a second
resolve with the same id (either decision) reports "Request not found". -/
theorem c4_resolve_removes (st : BGState) (rid : String) (req : PendingRequest) (r : JValue)
    (h : alGet st.pendingRequests rid = some req) :
    (alGet (handlePopupMessage st (.approve rid r)).1.pendingRequests rid = none ∧
     Eff.persist (persistState (handlePopupMessage st (.approve rid r)).1)
       ∈ (handlePopupMessage st (.approve rid r)).2.2 ∧
     (handlePopupMessage (handlePopupMessage st (.approve rid r)).1 (.approve rid r)).2.1
       = .errorS "Request not found" ∧
     (handlePopupMessage (handlePopupMessage st (.approve rid r)).1 (.reject rid)).2.1
       = .errorS "Request not found") ∧
    (alGet (handlePopupMessage st (.reject rid)).1.pendingRequests rid = none ∧
     Eff.persist (persistState (handlePopupMessage st (.reject rid)).1)
       ∈ (handlePopupMessage st (.reject rid)).2.2 ∧
     (handlePopupMessage (handlePopupMessage st (.reject rid)).1 (.approve rid r)).2.1
       = .errorS "Request not found" ∧
     (handlePopupMessage (handlePopupMessage st (.reject rid)).1 (.reject rid)).2.1
       = .errorS "Request not found") := by
  have hnone : alGet (alErase st.pendingRequests rid) rid = none :=
    alGet_alErase_self st.pendingRequests rid
  constructor
  · refine ⟨?_, ?_, ?_, ?_⟩
    · simpa [handlePopupMessage, popupApprove, h] using hnone
    · simp [handlePopupMessage, popupApprove, h]
    · simp [handlePopupMessage, popupApprove, popupReject, h, hnone]
    · simp [handlePopupMessage, popupApprove, popupReject, h, hnone]
  · refine ⟨?_, ?_, ?_, ?_⟩
    · simpa [handlePopupMessage, popupReject, h] using hnone
    · simp [handlePopupMessage, popupReject, h]
    · simp [handlePopupMessage, popupApprove, popupReject, h, hnone]
    · simp [handlePopupMessage, popupReject, h, hnone]

theorem c4_resolve_removes_witness :
    alGet (handlePopupMessage stW (.approve "rid-1" (.vStr "0xsig"))).1.pendingRequests "rid-1"
      = none ∧
    (handlePopupMessage (handlePopupMessage stW (.approve "rid-1" (.vStr "0xsig"))).1
        (.approve "rid-1" (.vStr "0xsig"))).2.1 = .errorS "Request not found" := by
  have h := c4_resolve_removes stW "rid-1" reqW (.vStr "0xsig") rfl
  exact ⟨h.1.1, h.1.2.2.1⟩

/-- C5: for `wallet_switchEthereumChain` from an authorized origin, a chain
id outside the fixed supported set leaves `activeChain` unchanged and
returns the 4902 "Unrecognized chain ID" error (distinct from the generic
-32602 invalid-params error); a chain id in the set mutates `activeChain`,
persists, broadcasts `chainChanged` to every registered channel, and answers
synchronously with no value; an unauthorized origin fails without mutating
`activeChain`. -/
theorem c5_switch_chain (st : BGState) (i : Nat) (origin : String)
    (tabId : Option Nat) (fresh : String) (now : Nat) (c : String) :
    (alGet st.approvedOrigins origin = none →
      handleDappMessage st (switchChainMsg i c) origin tabId fresh now
        = (st, some (.error 4100 "Not connected"), [])) ∧
    (∀ v, alGet st.approvedOrigins origin = some v → v.truthy = true →
      ((c ∉ knownChains → c ≠ "" →
        handleDappMessage st (switchChainMsg i c) origin tabId fresh now
          = (st, some (.error 4902 "Unrecognized chain ID"), []) ∧ (4902 : Int) ≠ -32602) ∧
       (c ∈ knownChains →
        (handleDappMessage st (switchChainMsg i c) origin tabId fresh now).1
          = { st with activeChainId := c } ∧
        (handleDappMessage st (switchChainMsg i c) origin tabId fresh now).2.1
          = some (.result .vNull) ∧
        Eff.persist (persistState { st with activeChainId := c })
          ∈ (handleDappMessage st (switchChainMsg i c) origin tabId fresh now).2.2 ∧
        ∀ t ∈ st.contentPorts,
          Eff.portMsg t (.event "chainChanged" (.vStr c))
            ∈ (handleDappMessage st (switchChainMsg i c) origin tabId fresh now).2.2))) := by
  constructor
  · intro ho
    simp [handleDappMessage, switchChainMsg, truthyLookup, ho]
  · intro v ho hv
    constructor
    · intro hkc hne
      refine ⟨?_, by decide⟩
      simp [handleDappMessage, switchChainMsg, truthyLookup, ho, hv,
        handleSwitchChain, JValue.index, JValue.getField, hkc, hne]
    · intro hkc
      have hne : c ≠ "" := by
        intro h0
        rw [h0] at hkc
        exact absurd hkc (by decide)
      have heffs : handleDappMessage st (switchChainMsg i c) origin tabId fresh now
          = ({ st with activeChainId := c }, some (.result .vNull),
             Eff.persist (persistState { st with activeChainId := c })
               :: broadcastEvent { st with activeChainId := c } "chainChanged" (.vStr c)) := by
        simp [handleDappMessage, switchChainMsg, truthyLookup, ho, hv,
          handleSwitchChain, JValue.index, JValue.getField, hkc, hne, broadcastEvent]
      refine ⟨?_, ?_, ?_, ?_⟩
      · rw [heffs]
      · rw [heffs]
      · rw [heffs]
        exact List.mem_cons_self _ _
      · intro t ht
        rw [heffs]
        exact List.mem_cons_of_mem _ (List.mem_map_of_mem _ ht)

theorem c5_switch_chain_witness :
    handleDappMessage stW (switchChainMsg 9 "0x7777") dappOrigin (some 7) "u3" 4
      = (stW, some (.error 4902 "Unrecognized chain ID"), []) ∧
    (handleDappMessage stW (switchChainMsg 9 "0x89") dappOrigin (some 7) "u3" 4).2.1
      = some (.result .vNull) := by
  have h1 := ((c5_switch_chain stW 9 dappOrigin (some 7) "u3" 4 "0x7777").2
      (.vArr [.vStr "0xabc"]) rfl rfl).1 (by decide) (by decide)
  have h2 := ((c5_switch_chain stW 9 dappOrigin (some 7) "u3" 4 "0x89").2
      (.vArr [.vStr "0xabc"]) rfl rfl).2 (by decide)
  exact ⟨h1.1, h2.2.1⟩

/-- C6: approving a pending `eth_requestAccounts` entry with an account list
`r` sets `approvedOrigins[origin]` to exactly `r` (overwriting any existing
grant, never merging), and the originating channel receives
`{id, result: r}` with the caller-supplied correlation id. -/
theorem c6_request_accounts_grant (st : BGState) (rid : String)
    (req : PendingRequest) (accounts : List JValue) (t : Nat)
    (h : alGet st.pendingRequests rid = some req)
    (hm : req.method = "eth_requestAccounts")
    (hs : req.source ≠ some "walletconnect")
    (ht : req.tabId = some t) (hp : t ∈ st.contentPorts) :
    alGet (handlePopupMessage st (.approve rid (.vArr accounts))).1.approvedOrigins req.origin
      = some (.vArr accounts) ∧
    Eff.portMsg t (.res req.id (.vArr accounts))
      ∈ (handlePopupMessage st (.approve rid (.vArr accounts))).2.2 := by
  constructor
  · simp [handlePopupMessage, popupApprove, h, hm, alGet_alSet_self]
  · simp [handlePopupMessage, popupApprove, h, hs, ht, hp]

theorem c6_request_accounts_grant_witness :
    alGet (handlePopupMessage stW (.approve "rid-2" (.vArr [.vStr "0xnew"]))).1.approvedOrigins
        dappOrigin = some (.vArr [.vStr "0xnew"]) ∧
    Eff.portMsg 7 (.res 43 (.vArr [.vStr "0xnew"]))
      ∈ (handlePopupMessage stW (.approve "rid-2" (.vArr [.vStr "0xnew"]))).2.2 := by
  have h := c6_request_accounts_grant stW "rid-2" reqRA [.vStr "0xnew"] 7
      rfl rfl (by decide) rfl (by decide)
  exact ⟨h.1, h.2⟩

/-- C7: persisting the session store and loading it into a fresh process
instance reproduces `locked`, `approvedOrigins`, `activeChain`,
`activeAccounts` and `pendingRequests`.  The nonempty-chain-id hypothesis
holds of every reachable state (see the invariant lemmas above); an empty
chain id would be replaced by the "0x1" restore default. -/
theorem c7_session_roundtrip (st : BGState) (h : st.activeChainId ≠ "") :
    (restoreState (persistState st) freshBGState).walletLocked = st.walletLocked ∧
    (restoreState (persistState st) freshBGState).approvedOrigins = st.approvedOrigins ∧
    (restoreState (persistState st) freshBGState).activeChainId = st.activeChainId ∧
    (restoreState (persistState st) freshBGState).activeAccounts = st.activeAccounts ∧
    (restoreState (persistState st) freshBGState).pendingRequests = st.pendingRequests := by
  refine ⟨?_, rfl, ?_, rfl, rfl⟩
  · cases hb : st.walletLocked <;> simp [restoreState, persistState, hb]
  · simp [restoreState, persistState, h]

theorem c7_session_roundtrip_witness :
    (restoreState (persistState stW) freshBGState).walletLocked = stW.walletLocked ∧
    (restoreState (persistState stW) freshBGState).approvedOrigins = stW.approvedOrigins ∧
    (restoreState (persistState stW) freshBGState).activeChainId = stW.activeChainId ∧
    (restoreState (persistState stW) freshBGState).activeAccounts = stW.activeAccounts ∧
    (restoreState (persistState stW) freshBGState).pendingRequests = stW.pendingRequests :=
  c7_session_roundtrip stW (by decide)

/-- C8: a pending entry created from a pairing-protocol session call has the
pairing fields (`wcTopic`, `wcRequestId`, `wcChainId`) populated and no
channel key (`tabId = none`); resolving it goes through the pairing
respond operation on approval and the pairing reject operation on rejection,
and never posts on a content-script channel; a page-sourced entry is the
complementary case (channel key present, pairing fields absent). -/
theorem c8_pairing_requests (st : BGState) (topic : String) (wcId : Nat)
    (chainId method : String) (params : JValue) (fresh : String) (now : Nat)
    (r : JValue) (hwc : st.wcInitialized = true) :
    alGet (onWcSessionRequest st topic wcId chainId method params fresh now).1.pendingRequests fresh
      = some { id := wcId, method := method, params := params,
               origin := "walletconnect:" ++ topic, tabId := none,
               requestId := fresh, wcTopic := some topic,
               wcRequestId := some wcId, wcChainId := some chainId,
               source := some "walletconnect", timestamp := now } ∧
    (Eff.wcRespond (some topic) (some wcId) r
        ∈ (handlePopupMessage (onWcSessionRequest st topic wcId chainId method params fresh now).1
            (.approve fresh r)).2.2 ∧
     ∀ e ∈ (handlePopupMessage (onWcSessionRequest st topic wcId chainId method params fresh now).1
            (.approve fresh r)).2.2, e.isPortMsg = false) ∧
    (Eff.wcReject (some topic) (some wcId) "User rejected"
        ∈ (handlePopupMessage (onWcSessionRequest st topic wcId chainId method params fresh now).1
            (.reject fresh)).2.2 ∧
     ∀ e ∈ (handlePopupMessage (onWcSessionRequest st topic wcId chainId method params fresh now).1
            (.reject fresh)).2.2, e.isPortMsg = false) ∧
    (∀ (i : Nat) (m : String) (p : JValue) (o : String) (tb : Nat),
      alGet (enqueueForApproval st i m p o (some tb) fresh now).1.pendingRequests fresh
        = some { id := i, method := m, params := p, origin := o, tabId := some tb,
                 requestId := fresh, timestamp := now }) := by
  have hget := alGet_alSet_self st.pendingRequests fresh
      { id := wcId, method := method, params := params,
        origin := "walletconnect:" ++ topic, tabId := none,
        requestId := fresh, wcTopic := some topic,
        wcRequestId := some wcId, wcChainId := some chainId,
        source := some "walletconnect", timestamp := now : PendingRequest }
  refine ⟨?_, ⟨?_, ?_⟩, ⟨?_, ?_⟩, ?_⟩
  · simpa [onWcSessionRequest] using hget
  · simp [handlePopupMessage, popupApprove, onWcSessionRequest, hget, hwc]
  · intro e he
    simp [handlePopupMessage, popupApprove, onWcSessionRequest, hget, hwc] at he
    rcases he with rfl | rfl <;> rfl
  · simp [handlePopupMessage, popupReject, onWcSessionRequest, hget, hwc]
  · intro e he
    simp [handlePopupMessage, popupReject, onWcSessionRequest, hget, hwc] at he
    rcases he with rfl | rfl <;> rfl
  · intro i m p o tb
    simpa [enqueueForApproval] using alGet_alSet_self st.pendingRequests fresh
      { id := i, method := m, params := p, origin := o, tabId := some tb,
        requestId := fresh, timestamp := now : PendingRequest }

theorem c8_pairing_requests_witness :
    Eff.wcRespond (some "topicA") (some 77) (.vStr "0xsig")
      ∈ (handlePopupMessage (onWcSessionRequest stW "topicA" 77 "eip155:1"
          "eth_sendTransaction" (.vArr []) "u4" 9).1 (.approve "u4" (.vStr "0xsig"))).2.2 :=
  ((c8_pairing_requests stW "topicA" 77 "eip155:1" "eth_sendTransaction" (.vArr []) "u4" 9
      (.vStr "0xsig") rfl).2.1).1

/-- C9: approving a pending `eth_requestAccounts` entry with a falsy result
value writes no grant into `approvedOrigins`; the entry is still delivered
to its channel and removed from `pendingRequests`. -/
theorem c9_falsy_result_no_grant (st : BGState) (rid : String)
    (req : PendingRequest) (r : JValue) (t : Nat)
    (h : alGet st.pendingRequests rid = some req)
    (_hm : req.method = "eth_requestAccounts")
    (hr : r.truthy = false)
    (hs : req.source ≠ some "walletconnect")
    (ht : req.tabId = some t) (hp : t ∈ st.contentPorts) :
    (handlePopupMessage st (.approve rid r)).1.approvedOrigins = st.approvedOrigins ∧
    Eff.portMsg t (.res req.id r) ∈ (handlePopupMessage st (.approve rid r)).2.2 ∧
    alGet (handlePopupMessage st (.approve rid r)).1.pendingRequests rid = none := by
  refine ⟨?_, ?_, ?_⟩ <;>
    simp [handlePopupMessage, popupApprove, h, hr, hs, ht, hp, alGet_alErase_self]

theorem c9_falsy_result_no_grant_witness :
    (handlePopupMessage stW (.approve "rid-2" .vUndefined)).1.approvedOrigins
      = stW.approvedOrigins ∧
    alGet (handlePopupMessage stW (.approve "rid-2" .vUndefined)).1.pendingRequests "rid-2"
      = none := by
  have h := c9_falsy_result_no_grant stW "rid-2" reqRA .vUndefined 7
      rfl rfl rfl (by decide) rfl (by decide)
  exact ⟨h.1, h.2.2⟩

/-- C10: resolving (approving or rejecting) a pending request whose method
is not `eth_requestAccounts` leaves `locked`, `approvedOrigins`,
`activeChain` and `activeAccounts` unchanged; the only session-state
mutation is the removal of that entry from `pendingRequests`. -/
theorem c10_resolve_frame (st : BGState) (rid : String) (req : PendingRequest) (r : JValue)
    (h : alGet st.pendingRequests rid = some req)
    (hm : req.method ≠ "eth_requestAccounts") :
    ((handlePopupMessage st (.approve rid r)).1.walletLocked = st.walletLocked ∧
     (handlePopupMessage st (.approve rid r)).1.approvedOrigins = st.approvedOrigins ∧
     (handlePopupMessage st (.approve rid r)).1.activeChainId = st.activeChainId ∧
     (handlePopupMessage st (.approve rid r)).1.activeAccounts = st.activeAccounts ∧
     (handlePopupMessage st (.approve rid r)).1.pendingRequests
       = alErase st.pendingRequests rid) ∧
    ((handlePopupMessage st (.reject rid)).1.walletLocked = st.walletLocked ∧
     (handlePopupMessage st (.reject rid)).1.approvedOrigins = st.approvedOrigins ∧
     (handlePopupMessage st (.reject rid)).1.activeChainId = st.activeChainId ∧
     (handlePopupMessage st (.reject rid)).1.activeAccounts = st.activeAccounts ∧
     (handlePopupMessage st (.reject rid)).1.pendingRequests
       = alErase st.pendingRequests rid) := by
  refine ⟨⟨?_, ?_, ?_, ?_, ?_⟩, ⟨?_, ?_, ?_, ?_, ?_⟩⟩ <;>
    simp [handlePopupMessage, popupApprove, popupReject, h, hm]

theorem c10_resolve_frame_witness :
    (handlePopupMessage stW (.approve "rid-1" (.vStr "0xsig"))).1.approvedOrigins
      = stW.approvedOrigins ∧
    (handlePopupMessage stW (.reject "rid-1")).1.activeChainId = stW.activeChainId := by
  have h := c10_resolve_frame stW "rid-1" reqW (.vStr "0xsig") rfl (by decide)
  exact ⟨h.1.2.1, h.2.2.2.1⟩

end Rusby
